import Mathlib

/-!
Shallow embedding of `src/gpx_kml_converter/core/gpx_plotter.py` (class
`GPXPlotter`) and proofs about its view-bounds arithmetic and its GPX
coordinate accumulation.  Coordinates are modelled as exact rationals `ℚ`;
the Python attributes `current_xlim` / `current_ylim` (kept in lockstep with
the Matplotlib axes limits, which are set from them at every mutation) become
the fields of `PlotterState`.  Matplotlib events become plain structures
carrying the fields the handlers read.
-/

namespace GPXPlotter

/-- View/pan state of the `GPXPlotter` object: `current_xlim = (min_lon, max_lon)`,
`current_ylim = (min_lat, max_lat)`, the pan flag and the pan anchor
(`pan_start_x` / `pan_start_y` are `None` before the first button press). -/
structure PlotterState where
  current_xlim : ℚ × ℚ
  current_ylim : ℚ × ℚ
  is_panning : Bool
  pan_start_x : Option ℚ
  pan_start_y : Option ℚ
deriving DecidableEq, Repr

/-- `self.zoom_factor = 1.2`. -/
def zoom_factor : ℚ := 6 / 5

/-- A Matplotlib scroll event, reduced to the fields `_on_scroll` reads:
whether `event.inaxes == self.ax`, the data coordinates (possibly `None`),
and the button string (`"up"`, `"down"`, or something else). -/
structure ScrollEvent where
  inaxes : Bool
  xdata : Option ℚ
  ydata : Option ℚ
  button : String

/-- A Matplotlib motion event, reduced to the fields `_on_mouse_motion` reads. -/
structure MotionEvent where
  inaxes : Bool
  xdata : Option ℚ
  ydata : Option ℚ

/-- A Matplotlib button event (`button = 1` is the left button). -/
structure ButtonEvent where
  inaxes : Bool
  xdata : Option ℚ
  ydata : Option ℚ
  button : Nat

/-- `_on_scroll`: zoom toward the cursor.  Early returns of the Python code
(`event.inaxes != self.ax`, `None` coordinates, a button that is neither
`"up"` nor `"down"`) leave the state untouched. -/
def _on_scroll (s : PlotterState) (e : ScrollEvent) : PlotterState :=
  if e.inaxes then
    match e.xdata, e.ydata with
    | some xdata, some ydata =>
      let cur_xlim := s.current_xlim
      let cur_ylim := s.current_ylim
      if e.button = "up" ∨ e.button = "down" then
        let scale_factor := if e.button = "up" then 1 / zoom_factor else zoom_factor
        let new_xlim := (xdata - (xdata - cur_xlim.1) * scale_factor,
                         xdata + (cur_xlim.2 - xdata) * scale_factor)
        let new_ylim := (ydata - (ydata - cur_ylim.1) * scale_factor,
                         ydata + (cur_ylim.2 - ydata) * scale_factor)
        { s with current_xlim := new_xlim, current_ylim := new_ylim }
      else s
    | _, _ => s
  else s

/-- `_on_button_press`: a left-button press inside the axes starts a pan and
records the cursor data coordinates as the anchor. -/
def _on_button_press (s : PlotterState) (e : ButtonEvent) : PlotterState :=
  if e.inaxes ∧ e.button = 1 then
    { s with is_panning := true, pan_start_x := e.xdata, pan_start_y := e.ydata }
  else s

/-- `_on_button_release`: a left-button release ends the pan (whether or not
one was in progress). -/
def _on_button_release (s : PlotterState) (e : ButtonEvent) : PlotterState :=
  if e.button = 1 then { s with is_panning := false } else s

/-- `_on_mouse_motion`: while panning, shift both limits of each axis by
`delta = pan_start - cursor`; the anchor fields are not written.  The guard
mirrors the Python conjunction `is_panning and event.inaxes == self.ax and
event.xdata is not None and event.ydata is not None`.  (If the anchor were
still `None` while panning the CPython code would raise a `TypeError`; that
branch is modelled as the identity and is unreachable after a well-formed
press inside the axes.) -/
def _on_mouse_motion (s : PlotterState) (e : MotionEvent) : PlotterState :=
  if s.is_panning ∧ e.inaxes then
    match e.xdata, e.ydata, s.pan_start_x, s.pan_start_y with
    | some xdata, some ydata, some px, some py =>
      let dx := px - xdata
      let dy := py - ydata
      let cur_xlim := s.current_xlim
      let cur_ylim := s.current_ylim
      { s with current_xlim := (cur_xlim.1 + dx, cur_xlim.2 + dx),
               current_ylim := (cur_ylim.1 + dy, cur_ylim.2 + dy) }
    | _, _, _, _ => s
  else s

/-- `min(list)` of CPython on a nonempty list (`0` is a junk value for `[]`,
never selected: the Python call sites are guarded by nonemptiness). -/
def listMin : List ℚ → ℚ
  | [] => 0
  | x :: xs => xs.foldl min x

/-- `max(list)` of CPython on a nonempty list. -/
def listMax : List ℚ → ℚ
  | [] => 0
  | x :: xs => xs.foldl max x

/-- `_set_plot_limits`: auto-fit the view to a list of `(lon, lat)` pairs,
or restore the default Europe view when the list is empty.  Numeric
literals of the source: `buffer_factor = 0.1`, `min_buffer_deg = 0.05`,
small-range threshold `0.1`, degenerate-cluster threshold `0.001`,
`extension = 0.1`. -/
def _set_plot_limits (s : PlotterState) (all_points_coords : List (ℚ × ℚ)) :
    PlotterState :=
  if all_points_coords.isEmpty then
    { s with current_xlim := (-10, 30), current_ylim := (35, 65) }
  else
    let all_lons := all_points_coords.map Prod.fst
    let all_lats := all_points_coords.map Prod.snd
    let min_lat := listMin all_lats
    let max_lat := listMax all_lats
    let min_lon := listMin all_lons
    let max_lon := listMax all_lons
    let lat_range := max_lat - min_lat
    let lon_range := max_lon - min_lon
    let buffer_factor : ℚ := 1 / 10
    let min_buffer_deg : ℚ := 1 / 20
    let lat_buffer := max (lat_range * buffer_factor)
      (if lat_range < 1 / 10 then min_buffer_deg else 0)
    let lon_buffer := max (lon_range * buffer_factor)
      (if lon_range < 1 / 10 then min_buffer_deg else 0)
    if lat_range < 1 / 1000 ∧ lon_range < 1 / 1000 then
      let center_lat := (min_lat + max_lat) / 2
      let center_lon := (min_lon + max_lon) / 2
      let extension : ℚ := 1 / 10
      { s with current_xlim := (center_lon - extension, center_lon + extension),
               current_ylim := (center_lat - extension, center_lat + extension) }
    else
      { s with current_xlim := (min_lon - lon_buffer, max_lon + lon_buffer),
               current_ylim := (min_lat - lat_buffer, max_lat + lat_buffer) }

/-- `clear_plot`: clear the axes and reset the view to the default region. -/
def clear_plot (s : PlotterState) : PlotterState :=
  { s with current_xlim := (-10, 30), current_ylim := (35, 65) }

/-- A gpxpy point: `latitude` / `longitude` may each be `None`. -/
structure GpxPoint where
  latitude : Option ℚ
  longitude : Option ℚ
deriving DecidableEq, Repr

/-- A gpxpy track segment. -/
structure GpxSegment where
  points : List GpxPoint
deriving DecidableEq, Repr

/-- A gpxpy track. -/
structure GpxTrack where
  segments : List GpxSegment
deriving DecidableEq, Repr

/-- A gpxpy route. -/
structure GpxRoute where
  points : List GpxPoint
deriving DecidableEq, Repr

/-- A gpxpy `GPX` object, reduced to the fields `plot_gpx_data` reads. -/
structure GPX where
  tracks : List GpxTrack
  routes : List GpxRoute
  waypoints : List GpxPoint
deriving DecidableEq, Repr

/-- The `(lons, lats)` argument pair that `plot_gpx_data` passes to
`ax.plot` / `ax.scatter` for one list of points, or `none` when the guard
`if lats and lons` fails and no draw call is made.  Latitudes and longitudes
are filtered for `None` independently, exactly as in the source:
`lats = [p.latitude for p in points if p.latitude is not None]` and
`lons = [p.longitude for p in points if p.longitude is not None]`. -/
def seriesArgs (points : List GpxPoint) : Option (List ℚ × List ℚ) :=
  let lats := points.filterMap GpxPoint.latitude
  let lons := points.filterMap GpxPoint.longitude
  if lats.isEmpty || lons.isEmpty then none else some (lons, lats)

/-- The `(lon, lat)` pairs a draw call contributes to `all_points_coords`:
`zip(lons, lats)` (CPython `zip` truncates to the shorter list). -/
def seriesCoords (points : List GpxPoint) : List (ℚ × ℚ) :=
  match seriesArgs points with
  | none => []
  | some (lons, lats) => lons.zip lats

/-- One track segment's contribution; the outer Python guard
`if segment.points:` precedes the filtering. -/
def segmentCoords (segment : GpxSegment) : List (ℚ × ℚ) :=
  if segment.points.isEmpty then [] else seriesCoords segment.points

/-- One route's contribution (guard `if route.points:`). -/
def routeCoords (route : GpxRoute) : List (ℚ × ℚ) :=
  if route.points.isEmpty then [] else seriesCoords route.points

/-- `all_points_coords` as accumulated by `plot_gpx_data`: tracks (segment by
segment), then routes, then waypoints. -/
def all_points_coords (gpx_data : GPX) : List (ℚ × ℚ) :=
  (gpx_data.tracks.flatMap fun track => track.segments.flatMap segmentCoords)
    ++ gpx_data.routes.flatMap routeCoords
    ++ seriesCoords gpx_data.waypoints

/-- `true` when some `ax.plot` / `ax.scatter` call issued by `plot_gpx_data`
receives coordinate lists of different lengths — Matplotlib then raises
`ValueError: x and y must have same first dimension`, which `plot_gpx_data`
does not catch. -/
def mismatchedArgs (points : List GpxPoint) : Bool :=
  match seriesArgs points with
  | none => false
  | some (lons, lats) => lons.length ≠ lats.length

/-- Whether `plot_gpx_data` raises on the given data (via a mismatched draw
call in some segment, route, or the waypoint scatter). -/
def plot_gpx_data_raises (gpx_data : GPX) : Bool :=
  (gpx_data.tracks.any fun track =>
    track.segments.any fun segment =>
      !segment.points.isEmpty && mismatchedArgs segment.points)
  || (gpx_data.routes.any fun route =>
      !route.points.isEmpty && mismatchedArgs route.points)
  || mismatchedArgs gpx_data.waypoints

/-- A point all of whose coordinates are defined (not `None`). -/
def fullyDefined (p : GpxPoint) : Bool :=
  p.latitude.isSome && p.longitude.isSome

/-- The state right after `__init__`: default Europe view, no pan. -/
def initState : PlotterState :=
  { current_xlim := (-10, 30), current_ylim := (35, 65),
    is_panning := false, pan_start_x := none, pan_start_y := none }

/-- A state in the middle of a pan, anchor at `(1, 2)` (used as a concrete
evaluation point). -/
def panState : PlotterState :=
  { current_xlim := (-10, 30), current_ylim := (35, 65),
    is_panning := true, pan_start_x := some 1, pan_start_y := some 2 }

/-- The non-degeneracy invariant of the view bounds. -/
def NonDegenerate (s : PlotterState) : Prop :=
  s.current_xlim.1 < s.current_xlim.2 ∧ s.current_ylim.1 < s.current_ylim.2

theorem foldl_min_le_init (xs : List ℚ) (b : ℚ) : xs.foldl min b ≤ b := by
  induction xs generalizing b with
  | nil => exact le_refl b
  | cons x xs ih => exact le_trans (ih (min b x)) (min_le_left b x)

theorem le_foldl_max_init (xs : List ℚ) (b : ℚ) : b ≤ xs.foldl max b := by
  induction xs generalizing b with
  | nil => exact le_refl b
  | cons x xs ih => exact le_trans (le_max_left b x) (ih (max b x))

theorem foldl_min_le_mem (xs : List ℚ) (b a : ℚ) (ha : a ∈ xs) : xs.foldl min b ≤ a := by
  induction xs generalizing b with
  | nil => cases ha
  | cons x xs ih =>
    rw [List.foldl_cons]
    rcases List.mem_cons.mp ha with rfl | h
    · exact le_trans (foldl_min_le_init xs (min b a)) (min_le_right b a)
    · exact ih (min b x) h

theorem le_foldl_max_mem (xs : List ℚ) (b a : ℚ) (ha : a ∈ xs) : a ≤ xs.foldl max b := by
  induction xs generalizing b with
  | nil => cases ha
  | cons x xs ih =>
    rw [List.foldl_cons]
    rcases List.mem_cons.mp ha with rfl | h
    · exact le_trans (le_max_right b a) (le_foldl_max_init xs (max b a))
    · exact ih (max b x) h

theorem listMin_le_of_mem (l : List ℚ) (a : ℚ) (ha : a ∈ l) : listMin l ≤ a := by
  cases l with
  | nil => cases ha
  | cons x xs =>
    rw [listMin]
    rcases List.mem_cons.mp ha with rfl | h
    · exact foldl_min_le_init xs a
    · exact foldl_min_le_mem xs x a h

theorem le_listMax_of_mem (l : List ℚ) (a : ℚ) (ha : a ∈ l) : a ≤ listMax l := by
  cases l with
  | nil => cases ha
  | cons x xs =>
    rw [listMax]
    rcases List.mem_cons.mp ha with rfl | h
    · exact le_foldl_max_init xs a
    · exact le_foldl_max_mem xs x a h

theorem listMin_le_listMax (l : List ℚ) (h : l ≠ []) : listMin l ≤ listMax l := by
  cases l with
  | nil => exact absurd rfl h
  | cons x xs =>
    exact le_trans (listMin_le_of_mem _ x (List.mem_cons_self x xs))
      (le_listMax_of_mem _ x (List.mem_cons_self x xs))

/-- C8: auto-fit on an empty coordinate list, and `clear_plot`, both set the
view bounds to the fixed default region lon `(-10, 30)` × lat `(35, 65)`. -/
theorem set_plot_limits_empty_and_clear_default (s : PlotterState) :
    (_set_plot_limits s []).current_xlim = (-10, 30) ∧
    (_set_plot_limits s []).current_ylim = (35, 65) ∧
    (clear_plot s).current_xlim = (-10, 30) ∧
    (clear_plot s).current_ylim = (35, 65) :=
  ⟨rfl, rfl, rfl, rfl⟩

/-- C10: a scroll event whose button is neither `"up"` nor `"down"` leaves the
whole state unchanged even when the cursor is inside the axes with valid
coordinates, and a motion event while no pan is active also leaves the state
unchanged. -/
theorem scroll_other_button_and_idle_motion_no_op (s : PlotterState)
    (e : ScrollEvent) (e' : MotionEvent)
    (hb : e.button ≠ "up") (hb' : e.button ≠ "down")
    (hp : s.is_panning = false) :
    _on_scroll s e = s ∧ _on_mouse_motion s e' = s := by
  constructor
  · rw [_on_scroll]
    cases hax : e.inaxes with
    | false => rfl
    | true =>
      cases e.xdata with
      | none => rfl
      | some x =>
        cases e.ydata with
        | none => rfl
        | some y => simp [hb, hb']
  · rw [_on_mouse_motion]
    simp [hp]

/-- C10 witness. -/
theorem scroll_other_button_and_idle_motion_no_op_witness :
    (("left" : String) ≠ "up") ∧ (("left" : String) ≠ "down") ∧
    (initState.is_panning = false) ∧
    (_on_scroll initState ⟨true, some 3, some 4, "left"⟩ = initState ∧
      _on_mouse_motion initState ⟨true, some 3, some 4⟩ = initState) :=
  ⟨by decide, by decide, rfl,
    scroll_other_button_and_idle_motion_no_op initState
      ⟨true, some 3, some 4, "left"⟩ ⟨true, some 3, some 4⟩
      (by decide) (by decide) rfl⟩

/-- C5: while a pan is active and the motion event carries valid coordinates,
the handler shifts both bounds of each axis by `delta = anchor - cursor`,
preserves each axis extent, and leaves the anchor (`pan_start_x`,
`pan_start_y`) untouched. -/
theorem pan_motion_shifts_bounds_keeps_anchor (s : PlotterState)
    (e : MotionEvent) (px py x y : ℚ)
    (hp : s.is_panning = true) (hin : e.inaxes = true)
    (hpx : s.pan_start_x = some px) (hpy : s.pan_start_y = some py)
    (hx : e.xdata = some x) (hy : e.ydata = some y) :
    (_on_mouse_motion s e).current_xlim
        = (s.current_xlim.1 + (px - x), s.current_xlim.2 + (px - x)) ∧
    (_on_mouse_motion s e).current_ylim
        = (s.current_ylim.1 + (py - y), s.current_ylim.2 + (py - y)) ∧
    (_on_mouse_motion s e).current_xlim.2 - (_on_mouse_motion s e).current_xlim.1
        = s.current_xlim.2 - s.current_xlim.1 ∧
    (_on_mouse_motion s e).current_ylim.2 - (_on_mouse_motion s e).current_ylim.1
        = s.current_ylim.2 - s.current_ylim.1 ∧
    (_on_mouse_motion s e).pan_start_x = s.pan_start_x ∧
    (_on_mouse_motion s e).pan_start_y = s.pan_start_y := by
  simp [_on_mouse_motion, hp, hin, hpx, hpy, hx, hy]

/-- C5 witness. -/
theorem pan_motion_shifts_bounds_keeps_anchor_witness :
    (panState.is_panning = true) ∧
    ((_on_mouse_motion panState ⟨true, some 3, some 4⟩).current_xlim
        = (panState.current_xlim.1 + (1 - 3), panState.current_xlim.2 + (1 - 3)) ∧
      (_on_mouse_motion panState ⟨true, some 3, some 4⟩).current_ylim
        = (panState.current_ylim.1 + (2 - 4), panState.current_ylim.2 + (2 - 4)) ∧
      (_on_mouse_motion panState ⟨true, some 3, some 4⟩).current_xlim.2
          - (_on_mouse_motion panState ⟨true, some 3, some 4⟩).current_xlim.1
        = panState.current_xlim.2 - panState.current_xlim.1 ∧
      (_on_mouse_motion panState ⟨true, some 3, some 4⟩).current_ylim.2
          - (_on_mouse_motion panState ⟨true, some 3, some 4⟩).current_ylim.1
        = panState.current_ylim.2 - panState.current_ylim.1 ∧
      (_on_mouse_motion panState ⟨true, some 3, some 4⟩).pan_start_x
        = panState.pan_start_x ∧
      (_on_mouse_motion panState ⟨true, some 3, some 4⟩).pan_start_y
        = panState.pan_start_y) :=
  ⟨rfl, pan_motion_shifts_bounds_keeps_anchor panState ⟨true, some 3, some 4⟩
    1 2 3 4 rfl rfl rfl rfl rfl rfl⟩

/-- C6: two motion events during one pan whose computed deltas are `(dx, dy)`
and `(-dx, -dy)` (the second cursor position mirrors the first across the
anchor) return the bounds exactly to their pre-pan values. -/
theorem pan_then_reverse_pan_restores_bounds (s : PlotterState)
    (e1 e2 : MotionEvent) (px py x y : ℚ)
    (hp : s.is_panning = true)
    (hpx : s.pan_start_x = some px) (hpy : s.pan_start_y = some py)
    (h1 : e1.inaxes = true) (hx1 : e1.xdata = some x) (hy1 : e1.ydata = some y)
    (h2 : e2.inaxes = true) (hx2 : e2.xdata = some (2 * px - x))
    (hy2 : e2.ydata = some (2 * py - y)) :
    (_on_mouse_motion (_on_mouse_motion s e1) e2).current_xlim = s.current_xlim ∧
    (_on_mouse_motion (_on_mouse_motion s e1) e2).current_ylim = s.current_ylim := by
  simp [_on_mouse_motion, hp, hpx, hpy, hx1, hy1, h1, h2, hx2, hy2]
  constructor <;> ring_nf

/-- C6 witness. -/
theorem pan_then_reverse_pan_restores_bounds_witness :
    (panState.is_panning = true) ∧
    ((_on_mouse_motion (_on_mouse_motion panState ⟨true, some 3, some 4⟩)
        ⟨true, some (2 * 1 - 3), some (2 * 2 - 4)⟩).current_xlim
        = panState.current_xlim ∧
      (_on_mouse_motion (_on_mouse_motion panState ⟨true, some 3, some 4⟩)
        ⟨true, some (2 * 1 - 3), some (2 * 2 - 4)⟩).current_ylim
        = panState.current_ylim) :=
  ⟨rfl, pan_then_reverse_pan_restores_bounds panState ⟨true, some 3, some 4⟩
    ⟨true, some (2 * 1 - 3), some (2 * 2 - 4)⟩ 1 2 3 4
    rfl rfl rfl rfl rfl rfl rfl rfl rfl⟩

theorem zoom_axis_relpos (lo hi c sc : ℚ) (_hlt : lo < hi) (hsc : 0 < sc) :
    (c - (c - (c - lo) * sc)) / ((c + (hi - c) * sc) - (c - (c - lo) * sc))
      = (c - lo) / (hi - lo) := by
  have h2 : (c + (hi - c) * sc) - (c - (c - lo) * sc) = (hi - lo) * sc := by ring
  have h3 : c - (c - (c - lo) * sc) = (c - lo) * sc := by ring
  rw [h2, h3, mul_div_mul_right _ _ (ne_of_gt hsc)]

/-- C3: on a scroll event with valid cursor coordinates and button `"up"` or
`"down"`, each bound of each axis is recomputed as
`new_bound = cursor - (cursor - old_bound) * scale` with
`scale = 1/zoom_factor` for zoom-in and `zoom_factor` for zoom-out, and
consequently the cursor's relative position within the bounds is unchanged. -/
theorem zoom_recomputes_bounds_cursor_fixed (s : PlotterState)
    (e : ScrollEvent) (x y : ℚ)
    (hin : e.inaxes = true) (hx : e.xdata = some x) (hy : e.ydata = some y)
    (hb : e.button = "up" ∨ e.button = "down")
    (hndx : s.current_xlim.1 < s.current_xlim.2)
    (hndy : s.current_ylim.1 < s.current_ylim.2) :
    ((_on_scroll s e).current_xlim.1
      = x - (x - s.current_xlim.1)
          * (if e.button = "up" then 1 / zoom_factor else zoom_factor)) ∧
    ((_on_scroll s e).current_xlim.2
      = x - (x - s.current_xlim.2)
          * (if e.button = "up" then 1 / zoom_factor else zoom_factor)) ∧
    ((_on_scroll s e).current_ylim.1
      = y - (y - s.current_ylim.1)
          * (if e.button = "up" then 1 / zoom_factor else zoom_factor)) ∧
    ((_on_scroll s e).current_ylim.2
      = y - (y - s.current_ylim.2)
          * (if e.button = "up" then 1 / zoom_factor else zoom_factor)) ∧
    (x - (_on_scroll s e).current_xlim.1)
        / ((_on_scroll s e).current_xlim.2 - (_on_scroll s e).current_xlim.1)
      = (x - s.current_xlim.1) / (s.current_xlim.2 - s.current_xlim.1) ∧
    (y - (_on_scroll s e).current_ylim.1)
        / ((_on_scroll s e).current_ylim.2 - (_on_scroll s e).current_ylim.1)
      = (y - s.current_ylim.1) / (s.current_ylim.2 - s.current_ylim.1) := by
  rcases hb with hb | hb
  · have hred : _on_scroll s e
        = { s with
            current_xlim := (x - (x - s.current_xlim.1) * (1 / zoom_factor),
                             x + (s.current_xlim.2 - x) * (1 / zoom_factor)),
            current_ylim := (y - (y - s.current_ylim.1) * (1 / zoom_factor),
                             y + (s.current_ylim.2 - y) * (1 / zoom_factor)) } := by
      simp [_on_scroll, hin, hx, hy, hb]
    rw [hred, hb]
    simp only [String.reduceEq, reduceIte]
    refine ⟨trivial, by ring, trivial, by ring, ?_, ?_⟩
    · exact zoom_axis_relpos s.current_xlim.1 s.current_xlim.2 x (1 / zoom_factor)
        hndx (by norm_num [zoom_factor])
    · exact zoom_axis_relpos s.current_ylim.1 s.current_ylim.2 y (1 / zoom_factor)
        hndy (by norm_num [zoom_factor])
  · have hred : _on_scroll s e
        = { s with
            current_xlim := (x - (x - s.current_xlim.1) * zoom_factor,
                             x + (s.current_xlim.2 - x) * zoom_factor),
            current_ylim := (y - (y - s.current_ylim.1) * zoom_factor,
                             y + (s.current_ylim.2 - y) * zoom_factor) } := by
      simp [_on_scroll, hin, hx, hy, hb]
    rw [hred, hb]
    simp only [String.reduceEq, reduceIte]
    refine ⟨trivial, by ring, trivial, by ring, ?_, ?_⟩
    · exact zoom_axis_relpos s.current_xlim.1 s.current_xlim.2 x zoom_factor
        hndx (by norm_num [zoom_factor])
    · exact zoom_axis_relpos s.current_ylim.1 s.current_ylim.2 y zoom_factor
        hndy (by norm_num [zoom_factor])

/-- C3 witness. -/
theorem zoom_recomputes_bounds_cursor_fixed_witness :
    ((⟨true, some 3, some 4, "up"⟩ : ScrollEvent).button = "up"
        ∨ (⟨true, some 3, some 4, "up"⟩ : ScrollEvent).button = "down") ∧
    (initState.current_xlim.1 < initState.current_xlim.2) ∧
    (((_on_scroll initState ⟨true, some 3, some 4, "up"⟩).current_xlim.1
      = 3 - (3 - initState.current_xlim.1)
          * (if (⟨true, some 3, some 4, "up"⟩ : ScrollEvent).button = "up"
              then 1 / zoom_factor else zoom_factor)) ∧
    ((_on_scroll initState ⟨true, some 3, some 4, "up"⟩).current_xlim.2
      = 3 - (3 - initState.current_xlim.2)
          * (if (⟨true, some 3, some 4, "up"⟩ : ScrollEvent).button = "up"
              then 1 / zoom_factor else zoom_factor)) ∧
    ((_on_scroll initState ⟨true, some 3, some 4, "up"⟩).current_ylim.1
      = 4 - (4 - initState.current_ylim.1)
          * (if (⟨true, some 3, some 4, "up"⟩ : ScrollEvent).button = "up"
              then 1 / zoom_factor else zoom_factor)) ∧
    ((_on_scroll initState ⟨true, some 3, some 4, "up"⟩).current_ylim.2
      = 4 - (4 - initState.current_ylim.2)
          * (if (⟨true, some 3, some 4, "up"⟩ : ScrollEvent).button = "up"
              then 1 / zoom_factor else zoom_factor)) ∧
    (3 - (_on_scroll initState ⟨true, some 3, some 4, "up"⟩).current_xlim.1)
        / ((_on_scroll initState ⟨true, some 3, some 4, "up"⟩).current_xlim.2
            - (_on_scroll initState ⟨true, some 3, some 4, "up"⟩).current_xlim.1)
      = (3 - initState.current_xlim.1)
          / (initState.current_xlim.2 - initState.current_xlim.1) ∧
    (4 - (_on_scroll initState ⟨true, some 3, some 4, "up"⟩).current_ylim.1)
        / ((_on_scroll initState ⟨true, some 3, some 4, "up"⟩).current_ylim.2
            - (_on_scroll initState ⟨true, some 3, some 4, "up"⟩).current_ylim.1)
      = (4 - initState.current_ylim.1)
          / (initState.current_ylim.2 - initState.current_ylim.1)) :=
  ⟨Or.inl rfl, by norm_num [initState],
    zoom_recomputes_bounds_cursor_fixed initState ⟨true, some 3, some 4, "up"⟩
      3 4 rfl rfl rfl (Or.inl rfl) (by norm_num [initState])
      (by norm_num [initState])⟩

/-- C4: a zoom-in immediately followed by a zoom-out at the same cursor
position (default factor 1.2) restores the bounds exactly (the embedding
computes in exact rational arithmetic). -/
theorem zoom_in_then_out_restores_bounds (s : PlotterState)
    (eu ed : ScrollEvent) (x y : ℚ)
    (hu : eu.inaxes = true) (hux : eu.xdata = some x) (huy : eu.ydata = some y)
    (hub : eu.button = "up")
    (hd : ed.inaxes = true) (hdx : ed.xdata = some x) (hdy : ed.ydata = some y)
    (hdb : ed.button = "down") :
    (_on_scroll (_on_scroll s eu) ed).current_xlim = s.current_xlim ∧
    (_on_scroll (_on_scroll s eu) ed).current_ylim = s.current_ylim := by
  simp [_on_scroll, zoom_factor, hu, hux, huy, hub, hd, hdx, hdy, hdb]
  constructor <;> ring_nf

/-- C4 witness. -/
theorem zoom_in_then_out_restores_bounds_witness :
    ((⟨true, some 3, some 4, "up"⟩ : ScrollEvent).button = "up") ∧
    ((_on_scroll (_on_scroll initState ⟨true, some 3, some 4, "up"⟩)
        ⟨true, some 3, some 4, "down"⟩).current_xlim = initState.current_xlim ∧
      (_on_scroll (_on_scroll initState ⟨true, some 3, some 4, "up"⟩)
        ⟨true, some 3, some 4, "down"⟩).current_ylim = initState.current_ylim) :=
  ⟨rfl, zoom_in_then_out_restores_bounds initState
    ⟨true, some 3, some 4, "up"⟩ ⟨true, some 3, some 4, "down"⟩ 3 4
    rfl rfl rfl rfl rfl rfl rfl rfl⟩

theorem buffer_pos (r : ℚ) :
    0 < max (r * (1 / 10)) (if r < 1 / 10 then (1 / 20 : ℚ) else 0) := by
  rcases lt_or_le r (1 / 10) with h | h
  · rw [if_pos h]
    have := le_max_right (r * (1 / 10)) (1 / 20 : ℚ)
    linarith
  · rw [if_neg (not_lt.mpr h)]
    have := le_max_left (r * (1 / 10)) (0 : ℚ)
    linarith

/-- C7: when both axis ranges are under 0.001 degrees (in particular for a
single point), auto-fit overrides the buffered bounds with a square of side
0.2 centered on the midpoint of the extremes (±0.1 in each direction). -/
theorem set_plot_limits_tight_cluster_square (s : PlotterState)
    (coords : List (ℚ × ℚ)) (hne : coords ≠ [])
    (hlat : listMax (coords.map Prod.snd) - listMin (coords.map Prod.snd)
      < 1 / 1000)
    (hlon : listMax (coords.map Prod.fst) - listMin (coords.map Prod.fst)
      < 1 / 1000) :
    (_set_plot_limits s coords).current_xlim
      = ((listMin (coords.map Prod.fst) + listMax (coords.map Prod.fst)) / 2
            - 1 / 10,
         (listMin (coords.map Prod.fst) + listMax (coords.map Prod.fst)) / 2
            + 1 / 10) ∧
    (_set_plot_limits s coords).current_ylim
      = ((listMin (coords.map Prod.snd) + listMax (coords.map Prod.snd)) / 2
            - 1 / 10,
         (listMin (coords.map Prod.snd) + listMax (coords.map Prod.snd)) / 2
            + 1 / 10) ∧
    (_set_plot_limits s coords).current_xlim.2
        - (_set_plot_limits s coords).current_xlim.1 = 1 / 5 ∧
    (_set_plot_limits s coords).current_ylim.2
        - (_set_plot_limits s coords).current_ylim.1 = 1 / 5 := by
  have hE : coords.isEmpty = false := by
    cases coords
    · exact absurd rfl hne
    · rfl
  have hred : _set_plot_limits s coords
      = { s with
          current_xlim :=
            ((listMin (coords.map Prod.fst) + listMax (coords.map Prod.fst)) / 2
                - 1 / 10,
             (listMin (coords.map Prod.fst) + listMax (coords.map Prod.fst)) / 2
                + 1 / 10),
          current_ylim :=
            ((listMin (coords.map Prod.snd) + listMax (coords.map Prod.snd)) / 2
                - 1 / 10,
             (listMin (coords.map Prod.snd) + listMax (coords.map Prod.snd)) / 2
                + 1 / 10) } := by
    rw [_set_plot_limits]
    rw [if_neg (by rw [hE]; exact Bool.false_ne_true)]
    rw [if_pos ⟨hlat, hlon⟩]
  rw [hred]
  exact ⟨rfl, rfl, by ring, by ring⟩

/-- C7 witness: a single point. -/
theorem set_plot_limits_tight_cluster_square_witness :
    (([((5 : ℚ), (47 : ℚ))] : List (ℚ × ℚ)) ≠ []) ∧
    (listMax ([((5 : ℚ), (47 : ℚ))].map Prod.snd)
        - listMin ([((5 : ℚ), (47 : ℚ))].map Prod.snd) < 1 / 1000) ∧
    ((_set_plot_limits initState [((5 : ℚ), (47 : ℚ))]).current_xlim
        = ((listMin ([((5 : ℚ), (47 : ℚ))].map Prod.fst)
              + listMax ([((5 : ℚ), (47 : ℚ))].map Prod.fst)) / 2 - 1 / 10,
           (listMin ([((5 : ℚ), (47 : ℚ))].map Prod.fst)
              + listMax ([((5 : ℚ), (47 : ℚ))].map Prod.fst)) / 2 + 1 / 10) ∧
      (_set_plot_limits initState [((5 : ℚ), (47 : ℚ))]).current_ylim
        = ((listMin ([((5 : ℚ), (47 : ℚ))].map Prod.snd)
              + listMax ([((5 : ℚ), (47 : ℚ))].map Prod.snd)) / 2 - 1 / 10,
           (listMin ([((5 : ℚ), (47 : ℚ))].map Prod.snd)
              + listMax ([((5 : ℚ), (47 : ℚ))].map Prod.snd)) / 2 + 1 / 10) ∧
      (_set_plot_limits initState [((5 : ℚ), (47 : ℚ))]).current_xlim.2
          - (_set_plot_limits initState [((5 : ℚ), (47 : ℚ))]).current_xlim.1
        = 1 / 5 ∧
      (_set_plot_limits initState [((5 : ℚ), (47 : ℚ))]).current_ylim.2
          - (_set_plot_limits initState [((5 : ℚ), (47 : ℚ))]).current_ylim.1
        = 1 / 5) :=
  ⟨by decide, by norm_num [listMin, listMax],
    set_plot_limits_tight_cluster_square initState [((5 : ℚ), (47 : ℚ))]
      (by decide) (by norm_num [listMin, listMax])
      (by norm_num [listMin, listMax])⟩

/-- C2: for every nonempty coordinate list, the auto-fit bounds strictly
contain every input point on both axes. -/
theorem set_plot_limits_bounds_strictly_contain (s : PlotterState)
    (coords : List (ℚ × ℚ)) (p : ℚ × ℚ) (hp : p ∈ coords) :
    (_set_plot_limits s coords).current_xlim.1 < p.1 ∧
    p.1 < (_set_plot_limits s coords).current_xlim.2 ∧
    (_set_plot_limits s coords).current_ylim.1 < p.2 ∧
    p.2 < (_set_plot_limits s coords).current_ylim.2 := by
  have hne : coords ≠ [] := List.ne_nil_of_mem hp
  have hE : coords.isEmpty = false := by
    cases coords
    · exact absurd rfl hne
    · rfl
  have hminlon : listMin (coords.map Prod.fst) ≤ p.1 :=
    listMin_le_of_mem _ _ (List.mem_map_of_mem Prod.fst hp)
  have hmaxlon : p.1 ≤ listMax (coords.map Prod.fst) :=
    le_listMax_of_mem _ _ (List.mem_map_of_mem Prod.fst hp)
  have hminlat : listMin (coords.map Prod.snd) ≤ p.2 :=
    listMin_le_of_mem _ _ (List.mem_map_of_mem Prod.snd hp)
  have hmaxlat : p.2 ≤ listMax (coords.map Prod.snd) :=
    le_listMax_of_mem _ _ (List.mem_map_of_mem Prod.snd hp)
  have hblon := buffer_pos
    (listMax (coords.map Prod.fst) - listMin (coords.map Prod.fst))
  have hblat := buffer_pos
    (listMax (coords.map Prod.snd) - listMin (coords.map Prod.snd))
  rw [_set_plot_limits, if_neg (by rw [hE]; exact Bool.false_ne_true)]
  dsimp only
  split
  · rename_i hsmall
    obtain ⟨hlat, hlon⟩ := hsmall
    refine ⟨?_, ?_, ?_, ?_⟩ <;> dsimp only <;> linarith
  · refine ⟨?_, ?_, ?_, ?_⟩ <;> dsimp only <;> linarith

/-- C2 witness. -/
theorem set_plot_limits_bounds_strictly_contain_witness :
    (((3 : ℚ), (4 : ℚ)) ∈ ([((3 : ℚ), (4 : ℚ)), ((7 : ℚ), (9 : ℚ))] : List (ℚ × ℚ))) ∧
    ((_set_plot_limits initState [((3 : ℚ), (4 : ℚ)), ((7 : ℚ), (9 : ℚ))]).current_xlim.1
        < 3 ∧
      (3 : ℚ)
        < (_set_plot_limits initState [((3 : ℚ), (4 : ℚ)), ((7 : ℚ), (9 : ℚ))]).current_xlim.2 ∧
      (_set_plot_limits initState [((3 : ℚ), (4 : ℚ)), ((7 : ℚ), (9 : ℚ))]).current_ylim.1
        < 4 ∧
      (4 : ℚ)
        < (_set_plot_limits initState [((3 : ℚ), (4 : ℚ)), ((7 : ℚ), (9 : ℚ))]).current_ylim.2) :=
  ⟨by decide,
    set_plot_limits_bounds_strictly_contain initState
      [((3 : ℚ), (4 : ℚ)), ((7 : ℚ), (9 : ℚ))] ((3 : ℚ), (4 : ℚ)) (by decide)⟩

/-- C9: every bounds-mutating operation — zoom, pan, auto-fit, clear —
preserves the non-degeneracy invariant `minLon < maxLon ∧ minLat < maxLat`. -/
theorem operations_preserve_nondegenerate (s : PlotterState)
    (h : NonDegenerate s) :
    (∀ e : ScrollEvent, NonDegenerate (_on_scroll s e)) ∧
    (∀ e : MotionEvent, NonDegenerate (_on_mouse_motion s e)) ∧
    (∀ coords : List (ℚ × ℚ), NonDegenerate (_set_plot_limits s coords)) ∧
    NonDegenerate (clear_plot s) := by
  obtain ⟨hx, hy⟩ := h
  refine ⟨?_, ?_, ?_, ?_⟩
  · intro e
    rw [_on_scroll]
    split
    · split
      · split
        · rename_i hbtn
          constructor <;> dsimp only [NonDegenerate] <;> split <;>
            simp only [zoom_factor] <;> nlinarith [hx, hy]
        · exact ⟨hx, hy⟩
      · exact ⟨hx, hy⟩
    · exact ⟨hx, hy⟩
  · intro e
    rw [_on_mouse_motion]
    split
    · split
      · constructor <;> dsimp only [NonDegenerate] <;> linarith
      · exact ⟨hx, hy⟩
    · exact ⟨hx, hy⟩
  · intro coords
    rw [_set_plot_limits]
    split
    · constructor <;> norm_num
    · rename_i hne
      have hne' : coords ≠ [] := by
        intro hnil
        rw [hnil] at hne
        exact hne rfl
      have hmmlon : listMin (coords.map Prod.fst) ≤ listMax (coords.map Prod.fst) :=
        listMin_le_listMax _ (by
          intro hnil
          exact hne' (List.map_eq_nil_iff.mp hnil))
      have hmmlat : listMin (coords.map Prod.snd) ≤ listMax (coords.map Prod.snd) :=
        listMin_le_listMax _ (by
          intro hnil
          exact hne' (List.map_eq_nil_iff.mp hnil))
      have hblon := buffer_pos
        (listMax (coords.map Prod.fst) - listMin (coords.map Prod.fst))
      have hblat := buffer_pos
        (listMax (coords.map Prod.snd) - listMin (coords.map Prod.snd))
      dsimp only
      split
      · constructor <;> dsimp only <;> linarith
      · constructor <;> dsimp only <;> linarith
  · exact ⟨by norm_num [clear_plot], by norm_num [clear_plot]⟩

/-- C9 witness. -/
theorem operations_preserve_nondegenerate_witness :
    NonDegenerate initState ∧
    ((∀ e : ScrollEvent, NonDegenerate (_on_scroll initState e)) ∧
      (∀ e : MotionEvent, NonDegenerate (_on_mouse_motion initState e)) ∧
      (∀ coords : List (ℚ × ℚ), NonDegenerate (_set_plot_limits initState coords)) ∧
      NonDegenerate (clear_plot initState)) :=
  ⟨⟨by norm_num [initState], by norm_num [initState]⟩,
    operations_preserve_nondegenerate initState
      ⟨by norm_num [initState], by norm_num [initState]⟩⟩

/-- The C1 failing input: two waypoints, each with exactly one coordinate
`None`.  No input point has both coordinates defined. -/
def chimeraGpx : GPX :=
  { tracks := [], routes := [],
    waypoints := [{ latitude := some 1, longitude := none },
                  { latitude := none, longitude := some 5 }] }

/-- A second C1 failing input: the independent filtering hands `ax.scatter`
a longitude list of length 1 and a latitude list of length 2. -/
def raisingGpx : GPX :=
  { tracks := [], routes := [],
    waypoints := [{ latitude := some 1, longitude := some 2 },
                  { latitude := some 3, longitude := none }] }

/-- C1 (evaluating the code at the failing inputs): `plot_gpx_data` filters
latitudes and longitudes for `None` independently and then zips them, so on
`chimeraGpx` — whose points each lack one coordinate and so should all be
skipped — it draws and accumulates the pair `(5, 1)`, which combines the
longitude of one input point with the latitude of another; and on
`raisingGpx` it hands `ax.scatter` lists of different lengths, which raises
`ValueError` past the function's boundary. -/
theorem plot_gpx_data_chimera_and_raise :
    all_points_coords chimeraGpx = [(5, 1)] ∧
    chimeraGpx.waypoints.all (fun p => !fullyDefined p) = true ∧
    plot_gpx_data_raises raisingGpx = true := by
  refine ⟨rfl, rfl, rfl⟩

end GPXPlotter
